import Mathlib

/-
Verification of the ShockScore web backend (Express routes and Netlify
functions) against its natural-language specification.

The embedding models the JavaScript route handlers from
backend/routes/analyze.js, backend/routes/analyze-simple.js,
backend/routes/video.js and the Netlify analyze-frame function as pure
Lean functions.  JavaScript numbers are modelled as rationals; the
JavaScript call Math.round x is the floor of x + 1/2 (round half toward
positive infinity), and Math.random draws are passed in explicitly as
rational parameters.
-/

namespace ShockScore

/-- The seven-category emotion record produced by the analyzer.  Values
are on a 0 to 100 scale (percentages). -/
structure Emotions where
  angry : ℚ
  disgust : ℚ
  fear : ℚ
  happy : ℚ
  sad : ℚ
  surprise : ℚ
  neutral : ℚ
deriving DecidableEq, Repr

/-- All seven categories are non-negative. -/
def Emotions.Nonneg (e : Emotions) : Prop :=
  0 ≤ e.angry ∧ 0 ≤ e.disgust ∧ 0 ≤ e.fear ∧ 0 ≤ e.happy ∧
  0 ≤ e.sad ∧ 0 ≤ e.surprise ∧ 0 ≤ e.neutral

instance (e : Emotions) : Decidable e.Nonneg := by
  unfold Emotions.Nonneg; infer_instance

/-- Sum of the seven category values, as computed by
Object.values(mockEmotions).reduce in the analyze-simple route. -/
def Emotions.total (e : Emotions) : ℚ :=
  e.angry + e.disgust + e.fear + e.happy + e.sad + e.surprise + e.neutral

/-- JavaScript Math.round: round half toward positive infinity. -/
def jsRound (x : ℚ) : ℤ := ⌊x + 1/2⌋

/-- JavaScript Math.min on two (non-NaN) numbers. -/
def jsMin (a b : ℚ) : ℚ := if a ≤ b then a else b

/-- Weight constants of calculateShockScore (identical in analyze.js,
analyze-simple.js and the Netlify function). -/
def FEAR_WEIGHT : ℚ := 2
def SURPRISE_WEIGHT : ℚ := 3/2
def DISGUST_WEIGHT : ℚ := 4/5
def HAPPY_WEIGHT : ℚ := 3/10
def ANGRY_WEIGHT : ℚ := 1/5
def SAD_WEIGHT : ℚ := 1/10

/-- calculateShockScore from backend/routes/analyze.js (the identical
function also appears in analyze-simple.js and the Netlify
analyze-frame function): a weighted sum of six emotion categories,
normalized by the maximum possible value 100 * (FEAR_WEIGHT +
SURPRISE_WEIGHT) = 350, scaled to 0..100, capped at 100 with Math.min,
and rounded to one decimal place. -/
def calculateShockScore (emotions : Emotions) : ℚ :=
  let score :=
    emotions.fear * FEAR_WEIGHT +
    emotions.surprise * SURPRISE_WEIGHT +
    emotions.disgust * DISGUST_WEIGHT +
    emotions.happy * HAPPY_WEIGHT +
    emotions.angry * ANGRY_WEIGHT +
    emotions.sad * SAD_WEIGHT
  let maxPossible : ℚ := 100 * (FEAR_WEIGHT + SURPRISE_WEIGHT)
  let normalized := jsMin 100 ((score / maxPossible) * 100)
  (jsRound (normalized * 10) : ℚ) / 10

/-- The shock-score formula as written in the specification (section
4.3): signed deltas from a session baseline, a tension term, and a final
clamp to the interval 0..100.  This definition follows the words of the
spec, for comparison with calculateShockScore above. -/
def specShockScore (baselineFear baselineSurprise : ℚ) (current : Emotions) : ℚ :=
  let fearDelta := current.fear - baselineFear
  let surpriseDelta := current.surprise - baselineSurprise
  let tension := (current.fear + current.disgust) / 2
  let rawScore := fearDelta * FEAR_WEIGHT + surpriseDelta * SURPRISE_WEIGHT + tension
  if rawScore < 0 then 0 else if 100 < rawScore then 100 else rawScore

/-- The concrete scenario frame of the spec: fear 40, surprise 20,
disgust 10, all other categories zero. -/
def scenarioFrame : Emotions :=
  { angry := 0, disgust := 10, fear := 40, happy := 0, sad := 0, surprise := 20, neutral := 0 }

/-- A JSON value appearing in a response body.  The constructors image,
box and faceId model raw imagery, bounding boxes and per-face
identifiers: they are available in the modelling language (the uploaded
frame itself is such a value) so that the privacy theorems can state
that no handler ever places one in a response. -/
inductive JsValue where
  | bool (b : Bool)
  | num (q : ℚ)
  | str (s : String)
  | emap (e : Emotions)
  | image (bytes : List Nat)
  | box (x y w h : ℚ)
  | faceId (n : Nat)
deriving DecidableEq, Repr

/-- Whether a value is raw imagery, a bounding box or a per-face
identifier. -/
def JsValue.isPerFaceData : JsValue → Bool
  | .image _ => true
  | .box _ _ _ _ => true
  | .faceId _ => true
  | _ => false

/-- An HTTP response: status code plus JSON body given as an ordered
list of field-name and value pairs. -/
structure FrameResponse where
  status : Nat
  body : List (String × JsValue)
deriving DecidableEq, Repr

/-- Result of the PythonShell call in backend/routes/analyze.js: either
the analyze_frame.py JSON row (face-detected flag, per-category emotion
means, dominant emotion), or a failure of the Python process.  A null or
missing row is modelled as success with faceDetected = false, exactly as
the guard if analysis and analysis.faceDetected treats it. -/
inductive PyOutcome where
  | success (faceDetected : Bool) (emotions : Emotions) (dominantEmotion : String)
  | failure
deriving DecidableEq, Repr

/-- One Math.random() draw per generated emotion value plus one for the
mock shock score; JavaScript guarantees each draw lies in [0, 1). -/
structure RandDraws where
  r1 : ℚ
  r2 : ℚ
  r3 : ℚ
  r4 : ℚ
  r5 : ℚ
  r6 : ℚ
  r7 : ℚ
  rScore : ℚ
deriving DecidableEq, Repr

/-- All draws lie in the interval [0, 1), as Math.random guarantees. -/
def RandDraws.InUnit (r : RandDraws) : Prop :=
  (0 ≤ r.r1 ∧ r.r1 < 1) ∧ (0 ≤ r.r2 ∧ r.r2 < 1) ∧ (0 ≤ r.r3 ∧ r.r3 < 1) ∧
  (0 ≤ r.r4 ∧ r.r4 < 1) ∧ (0 ≤ r.r5 ∧ r.r5 < 1) ∧ (0 ≤ r.r6 ∧ r.r6 < 1) ∧
  (0 ≤ r.r7 ∧ r.r7 < 1) ∧ (0 ≤ r.rScore ∧ r.rScore < 1)

/-- Mock emotions returned by the catch branch of analyze.js when the
Python process fails. -/
def mockFailEmotions (r : RandDraws) : Emotions :=
  { angry := r.r1 * 10, disgust := r.r2 * 5, fear := r.r3 * 30, happy := r.r4 * 20,
    sad := r.r5 * 15, surprise := r.r6 * 20, neutral := r.r7 * 40 }

/-- Mock emotions generated by analyze-simple.js (and by the Netlify
analyze-frame function): fear is at least 20 and surprise and neutral at
least 10 by construction. -/
def mockSimpleEmotions (r : RandDraws) : Emotions :=
  { angry := r.r1 * 15, disgust := r.r2 * 10, fear := 20 + r.r3 * 40, happy := r.r4 * 25,
    sad := r.r5 * 15, surprise := 10 + r.r6 * 30, neutral := 10 + r.r7 * 30 }

/-- The normalization loop of analyze-simple.js (and of the Netlify
function): divide every category value by the total and scale by 100. -/
def normalizeEmotions (e : Emotions) : Emotions :=
  let total := e.total
  { angry := e.angry / total * 100, disgust := e.disgust / total * 100,
    fear := e.fear / total * 100, happy := e.happy / total * 100,
    sad := e.sad / total * 100, surprise := e.surprise / total * 100,
    neutral := e.neutral / total * 100 }

/-- Dominant-emotion selection of analyze-simple.js:
Object.entries(normalized).reduce keeping the entry with the larger
value, later entries winning ties; entry order is the object insertion
order angry, disgust, fear, happy, sad, surprise, neutral. -/
def dominantEmotion (e : Emotions) : String :=
  let rest : List (String × ℚ) :=
    [("disgust", e.disgust), ("fear", e.fear), ("happy", e.happy),
     ("sad", e.sad), ("surprise", e.surprise), ("neutral", e.neutral)]
  (rest.foldl (fun a b => if a.2 > b.2 then a else b) ("angry", e.angry)).1

/-- The POST /api/analyze/frame handler of backend/routes/analyze.js,
after the Python call has resolved to an outcome.  On success with a
face it returns the aggregate fields and the computed shock score; on
success without a face it returns the defined no-face result; on a
Python failure the catch branch returns a 200 response with mock data
and faceDetected set to true. -/
def analyzeFrameExpress (outcome : PyOutcome) (rand : RandDraws) : FrameResponse :=
  match outcome with
  | .success true em dom =>
      { status := 200,
        body := [("faceDetected", .bool true), ("emotions", .emap em),
                 ("dominantEmotion", .str dom),
                 ("shockScore", .num (calculateShockScore em))] }
  | .success false _ _ =>
      { status := 200,
        body := [("faceDetected", .bool false),
                 ("message", .str "No face detected in frame")] }
  | .failure =>
      { status := 200,
        body := [("faceDetected", .bool true),
                 ("emotions", .emap (mockFailEmotions rand)),
                 ("dominantEmotion", .str "neutral"),
                 ("shockScore", .num (rand.rScore * 50)),
                 ("_note", .str "Using mock data - Python engine unavailable")] }

/-- The POST /api/analyze/frame handler of backend/routes/analyze-simple.js:
always returns mock data, normalized to sum 100, with the computed
dominant emotion and shock score. -/
def analyzeSimple (rand : RandDraws) : FrameResponse :=
  let normalized := normalizeEmotions (mockSimpleEmotions rand)
  { status := 200,
    body := [("faceDetected", .bool true), ("emotions", .emap normalized),
             ("dominantEmotion", .str (dominantEmotion normalized)),
             ("shockScore", .num (calculateShockScore normalized)),
             ("_mode", .str "mock")] }

/-- The Netlify analyze-frame function: answers the CORS preflight,
rejects non-POST methods with 405, and otherwise returns the same mock
analysis as analyze-simple.js plus a platform marker field. -/
def netlifyAnalyzeFrame (httpMethod : String) (rand : RandDraws) : FrameResponse :=
  if httpMethod = "OPTIONS" then
    { status := 200, body := [] }
  else if httpMethod ≠ "POST" then
    { status := 405, body := [("error", .str "Method not allowed")] }
  else
    let normalized := normalizeEmotions (mockSimpleEmotions rand)
    { status := 200,
      body := [("faceDetected", .bool true), ("emotions", .emap normalized),
               ("dominantEmotion", .str (dominantEmotion normalized)),
               ("shockScore", .num (calculateShockScore normalized)),
               ("_mode", .str "mock"), ("_platform", .str "netlify")] }

/-- The uploads directory, as the routes in video.js observe it: a map
from file name to file contents (none when the file does not exist). -/
abbrev Store := String → Option String

/-- Report file name used by the status, report and delete routes of
video.js. -/
def reportFileName (videoId : String) : String := videoId ++ "-report.json"

/-- Body of the GET /api/videos/:id/status response. -/
structure StatusBody where
  videoId : String
  status : String
  reportAvailable : Bool
deriving DecidableEq, Repr

/-- The GET /api/videos/:id/status handler of video.js: fs.access on the
report file decides between the completed and the processing answer;
both are HTTP 200. -/
def statusHandler (store : Store) (videoId : String) : Nat × StatusBody :=
  match store (reportFileName videoId) with
  | some _ => (200, { videoId := videoId, status := "completed", reportAvailable := true })
  | none => (200, { videoId := videoId, status := "processing", reportAvailable := false })

/-- Result of GET /api/videos/:id/report, parameterized by the type R of
parsed JSON documents. -/
inductive ReportResult (R : Type) where
  | ok (videoId : String) (report : R)
  | notFound (message : String)
  | serverError
deriving DecidableEq, Repr

/-- The GET /api/videos/:id/report handler of video.js: read the report
file, JSON.parse it, and answer 200 with the parsed report; a missing
file (ENOENT) answers 404, a parse failure falls through to the error
middleware (500).  The handler performs no write: it returns the store
unchanged. -/
def reportHandler {R : Type} (parse : String → Option R) (store : Store)
    (videoId : String) : (Nat × ReportResult R) × Store :=
  match store (reportFileName videoId) with
  | some contents =>
      match parse contents with
      | some report => ((200, .ok videoId report), store)
      | none => ((500, .serverError), store)
  | none => ((404, .notFound "Report not found. Video may still be processing."), store)

/-- Zero-valued random draws, a concrete sample point. -/
def randZero : RandDraws :=
  { r1 := 0, r2 := 0, r3 := 0, r4 := 0, r5 := 0, r6 := 0, r7 := 0, rScore := 0 }

/-- All-zero emotion record, a concrete sample point. -/
def emZero : Emotions :=
  { angry := 0, disgust := 0, fear := 0, happy := 0, sad := 0, surprise := 0, neutral := 0 }

/-- One emotion category. -/
inductive EmotionCat where
  | angry | disgust | fear | happy | sad | surprise | neutral
deriving DecidableEq, Repr

/-- Read one category of an emotion record. -/
def Emotions.get (e : Emotions) : EmotionCat → ℚ
  | .angry => e.angry
  | .disgust => e.disgust
  | .fear => e.fear
  | .happy => e.happy
  | .sad => e.sad
  | .surprise => e.surprise
  | .neutral => e.neutral

/-- Replace one category of an emotion record. -/
def Emotions.set (e : Emotions) : EmotionCat → ℚ → Emotions
  | .angry, v => { e with angry := v }
  | .disgust, v => { e with disgust := v }
  | .fear, v => { e with fear := v }
  | .happy, v => { e with happy := v }
  | .sad, v => { e with sad := v }
  | .surprise, v => { e with surprise := v }
  | .neutral, v => { e with neutral := v }

/-- Pointwise order on emotion records. -/
def Emotions.le (e1 e2 : Emotions) : Prop :=
  e1.angry ≤ e2.angry ∧ e1.disgust ≤ e2.disgust ∧ e1.fear ≤ e2.fear ∧
  e1.happy ≤ e2.happy ∧ e1.sad ≤ e2.sad ∧ e1.surprise ≤ e2.surprise ∧
  e1.neutral ≤ e2.neutral

/-- The shock-score description that does match the source: a weighted
sum of six emotion categories, normalized by the maximum possible value
350, scaled to 0..100, capped at 100 and rounded to one decimal.  This
definition follows the words of the amended claim C1, for comparison
with calculateShockScore. -/
def amendedSpecScore (e : Emotions) : ℚ :=
  let weighted := e.fear * 2 + e.surprise * (3/2) + e.disgust * (4/5) +
    e.happy * (3/10) + e.angry * (1/5) + e.sad * (1/10)
  let pct := weighted / 350 * 100
  let capped := if pct ≤ 100 then pct else 100
  (⌊capped * 10 + 1/2⌋ : ℚ) / 10

/-- Field names the frame-analysis responses are allowed to use. -/
def aggregateFieldNames : List String :=
  ["faceDetected", "emotions", "dominantEmotion", "shockScore"]

/-- Metadata string fields the handlers additionally emit. -/
def metadataFieldNames : List String :=
  ["message", "_note", "_mode", "_platform"]

/-- A body field is acceptable when its name is an aggregate or metadata
field name and its value is not per-face data. -/
def fieldOk (f : String × JsValue) : Bool :=
  (aggregateFieldNames ++ metadataFieldNames).contains f.1 && !f.2.isPerFaceData

/- Helper lemmas. -/

lemma jsMin_eq_cap (x : ℚ) : jsMin 100 x = if x ≤ 100 then x else 100 := by
  unfold jsMin
  by_cases h1 : (100:ℚ) ≤ x <;> by_cases h2 : x ≤ 100 <;> simp [h1, h2] <;> linarith

lemma jsMin_nonneg (x : ℚ) (hx : 0 ≤ x) : 0 ≤ jsMin 100 x := by
  unfold jsMin; split <;> [norm_num; exact hx]

lemma jsMin_le_100 (x : ℚ) : jsMin 100 x ≤ 100 := by
  unfold jsMin
  split
  · exact le_refl 100
  · linarith [le_of_not_le (by assumption : ¬ (100:ℚ) ≤ x)]

lemma jsMin_mono (x y : ℚ) (h : x ≤ y) : jsMin 100 x ≤ jsMin 100 y := by
  unfold jsMin
  split <;> split <;> first | rfl | linarith

lemma jsRound_div_ten_bounds (y : ℚ) (h0 : 0 ≤ y) (h100 : y ≤ 100) :
    0 ≤ (jsRound (y * 10) : ℚ) / 10 ∧ (jsRound (y * 10) : ℚ) / 10 ≤ 100 := by
  unfold jsRound
  constructor
  · have h1 : (0:ℤ) ≤ ⌊y * 10 + 1/2⌋ := Int.le_floor.mpr (by push_cast; linarith)
    have h1' : (0:ℚ) ≤ (⌊y * 10 + 1/2⌋ : ℚ) := by exact_mod_cast h1
    linarith
  · have h2 : ⌊y * 10 + 1/2⌋ < 1001 := Int.floor_lt.mpr (by push_cast; linarith)
    have h2' : (⌊y * 10 + 1/2⌋ : ℚ) ≤ 1000 := by exact_mod_cast Int.lt_add_one_iff.mp h2
    linarith

lemma jsRound_mono (x y : ℚ) (h : x ≤ y) : jsRound x ≤ jsRound y := by
  unfold jsRound
  exact Int.floor_le_floor (by linarith)

lemma weighted_sum_mono (e1 e2 : Emotions) (h : e1.le e2) :
    e1.fear * FEAR_WEIGHT + e1.surprise * SURPRISE_WEIGHT + e1.disgust * DISGUST_WEIGHT +
      e1.happy * HAPPY_WEIGHT + e1.angry * ANGRY_WEIGHT + e1.sad * SAD_WEIGHT ≤
    e2.fear * FEAR_WEIGHT + e2.surprise * SURPRISE_WEIGHT + e2.disgust * DISGUST_WEIGHT +
      e2.happy * HAPPY_WEIGHT + e2.angry * ANGRY_WEIGHT + e2.sad * SAD_WEIGHT := by
  obtain ⟨ha, hd, hf, hh, hs, hsu, hn⟩ := h
  unfold FEAR_WEIGHT SURPRISE_WEIGHT DISGUST_WEIGHT HAPPY_WEIGHT ANGRY_WEIGHT SAD_WEIGHT
  linarith

lemma roundedCap_mono (x y : ℚ) (h : x ≤ y) :
    (jsRound (jsMin 100 x * 10) : ℚ) / 10 ≤ (jsRound (jsMin 100 y * 10) : ℚ) / 10 := by
  have hmin := jsMin_mono x y h
  have hround := jsRound_mono (jsMin 100 x * 10) (jsMin 100 y * 10) (by linarith)
  have hcast : (jsRound (jsMin 100 x * 10) : ℚ) ≤ (jsRound (jsMin 100 y * 10) : ℚ) := by
    exact_mod_cast hround
  linarith

lemma calculateShockScore_mono (e1 e2 : Emotions) (h : e1.le e2) :
    calculateShockScore e1 ≤ calculateShockScore e2 := by
  unfold calculateShockScore
  apply roundedCap_mono
  have hsum := weighted_sum_mono e1 e2 h
  unfold FEAR_WEIGHT SURPRISE_WEIGHT DISGUST_WEIGHT HAPPY_WEIGHT ANGRY_WEIGHT SAD_WEIGHT
    at hsum ⊢
  linarith

/-- Claim C1: the spec says calculateShockScore computes raw_score =
fear_delta * W_FEAR + surprise_delta * W_SURPRISE + tension from a
session baseline, and in the concrete scenario (baseline fear 5 and
surprise 3; frame fear 40, surprise 20, disgust 10) returns raw score
120.5 clamped to 100.  Counterexample: the spec formula indeed yields
100 on that scenario, but the calculateShockScore of the source takes no
baseline at all and returns 33.7, not 100, on the scenario frame. -/
theorem c1_claim_false :
    specShockScore 5 3 scenarioFrame = 100 ∧
    calculateShockScore scenarioFrame = 337 / 10 ∧
    calculateShockScore scenarioFrame ≠ 100 := by
  refine ⟨?_, ?_, ?_⟩ <;>
    norm_num [specShockScore, calculateShockScore, jsRound, jsMin, scenarioFrame,
      FEAR_WEIGHT, SURPRISE_WEIGHT, DISGUST_WEIGHT, HAPPY_WEIGHT, ANGRY_WEIGHT, SAD_WEIGHT]

/-- Claim C1 (amended): calculateShockScore uses no baseline deltas and
no tension term; it computes a weighted sum of the six non-neutral
emotion categories with weights 2.0, 1.5, 0.8, 0.3, 0.2, 0.1, divides
by the maximum possible value 350, scales by 100, caps the result at
100 and rounds to one decimal; on the spec scenario frame (fear 40,
surprise 20, disgust 10, others 0) it returns 33.7, not 100. -/
theorem c1_amended_shockScore :
    (∀ e : Emotions, calculateShockScore e = amendedSpecScore e) ∧
    calculateShockScore scenarioFrame = 337 / 10 := by
  constructor
  · intro e
    simp only [calculateShockScore, amendedSpecScore, jsRound,
      FEAR_WEIGHT, SURPRISE_WEIGHT, DISGUST_WEIGHT, HAPPY_WEIGHT, ANGRY_WEIGHT, SAD_WEIGHT,
      jsMin_eq_cap]
    norm_num
  · norm_num [calculateShockScore, jsRound, jsMin, scenarioFrame,
      FEAR_WEIGHT, SURPRISE_WEIGHT, DISGUST_WEIGHT, HAPPY_WEIGHT, ANGRY_WEIGHT, SAD_WEIGHT]

/-- Claim C2: for every emotion input with all categories non-negative,
calculateShockScore returns a value in the interval 0..100: the final
combined score never exceeds 100 and never falls below 0. -/
theorem c2_shockScore_bounded (e : Emotions) (h : e.Nonneg) :
    0 ≤ calculateShockScore e ∧ calculateShockScore e ≤ 100 := by
  obtain ⟨ha, hd, hf, hh, hs, hsu, hn⟩ := h
  unfold calculateShockScore
  have hscore : 0 ≤ (e.fear * FEAR_WEIGHT + e.surprise * SURPRISE_WEIGHT +
      e.disgust * DISGUST_WEIGHT + e.happy * HAPPY_WEIGHT + e.angry * ANGRY_WEIGHT +
      e.sad * SAD_WEIGHT) / (100 * (FEAR_WEIGHT + SURPRISE_WEIGHT)) * 100 := by
    unfold FEAR_WEIGHT SURPRISE_WEIGHT DISGUST_WEIGHT HAPPY_WEIGHT ANGRY_WEIGHT SAD_WEIGHT
    have : 0 ≤ e.fear * 2 + e.surprise * (3/2) + e.disgust * (4/5) + e.happy * (3/10) +
        e.angry * (1/5) + e.sad * (1/10) := by linarith
    positivity
  exact jsRound_div_ten_bounds _ (jsMin_nonneg _ hscore) (jsMin_le_100 _)

/-- Witness for claim C2 at the all-zero emotion record. -/
theorem c2_shockScore_bounded_witness :
    Emotions.Nonneg emZero ∧
    (0 ≤ calculateShockScore emZero ∧ calculateShockScore emZero ≤ 100) :=
  ⟨⟨le_refl 0, le_refl 0, le_refl 0, le_refl 0, le_refl 0, le_refl 0, le_refl 0⟩,
   c2_shockScore_bounded emZero
     ⟨le_refl 0, le_refl 0, le_refl 0, le_refl 0, le_refl 0, le_refl 0, le_refl 0⟩⟩

/-- Claim C3: the normalization step of the analyze-frame handler
divides each raw non-negative value by the total and scales by 100;
each emitted category value lies in 0..100 and the emitted values sum
to exactly 100 (the rational model carries no floating-point error). -/
theorem c3_normalized_bounds_sum (e : Emotions) (h : e.Nonneg) (hpos : 0 < e.total) :
    (normalizeEmotions e).Nonneg ∧
    (normalizeEmotions e).angry ≤ 100 ∧ (normalizeEmotions e).disgust ≤ 100 ∧
    (normalizeEmotions e).fear ≤ 100 ∧ (normalizeEmotions e).happy ≤ 100 ∧
    (normalizeEmotions e).sad ≤ 100 ∧ (normalizeEmotions e).surprise ≤ 100 ∧
    (normalizeEmotions e).neutral ≤ 100 ∧
    (normalizeEmotions e).total = 100 := by
  obtain ⟨ha, hd, hf, hh, hs, hsu, hn⟩ := h
  have ht : e.total ≠ 0 := ne_of_gt hpos
  have htot : e.angry + e.disgust + e.fear + e.happy + e.sad + e.surprise + e.neutral =
      e.total := by unfold Emotions.total; ring
  have hcomp : ∀ x : ℚ, 0 ≤ x → x ≤ e.total → 0 ≤ x / e.total * 100 ∧ x / e.total * 100 ≤ 100 := by
    intro x hx hxe
    constructor
    · positivity
    · have hdiv : x / e.total ≤ 1 := (div_le_one hpos).mpr hxe
      nlinarith
  have hba : e.angry ≤ e.total := by rw [← htot]; linarith
  have hbd : e.disgust ≤ e.total := by rw [← htot]; linarith
  have hbf : e.fear ≤ e.total := by rw [← htot]; linarith
  have hbh : e.happy ≤ e.total := by rw [← htot]; linarith
  have hbs : e.sad ≤ e.total := by rw [← htot]; linarith
  have hbsu : e.surprise ≤ e.total := by rw [← htot]; linarith
  have hbn : e.neutral ≤ e.total := by rw [← htot]; linarith
  refine ⟨⟨(hcomp _ ha hba).1, (hcomp _ hd hbd).1, (hcomp _ hf hbf).1, (hcomp _ hh hbh).1,
      (hcomp _ hs hbs).1, (hcomp _ hsu hbsu).1, (hcomp _ hn hbn).1⟩,
    (hcomp _ ha hba).2, (hcomp _ hd hbd).2, (hcomp _ hf hbf).2, (hcomp _ hh hbh).2,
    (hcomp _ hs hbs).2, (hcomp _ hsu hbsu).2, (hcomp _ hn hbn).2, ?_⟩
  show e.angry / e.total * 100 + e.disgust / e.total * 100 + e.fear / e.total * 100 +
      e.happy / e.total * 100 + e.sad / e.total * 100 + e.surprise / e.total * 100 +
      e.neutral / e.total * 100 = 100
  field_simp
  linarith [htot]

/-- Witness for claim C3 at the record with every category equal 1. -/
theorem c3_normalized_bounds_sum_witness :
    Emotions.Nonneg ⟨1, 1, 1, 1, 1, 1, 1⟩ ∧ 0 < Emotions.total ⟨1, 1, 1, 1, 1, 1, 1⟩ ∧
    ((normalizeEmotions ⟨1, 1, 1, 1, 1, 1, 1⟩).Nonneg ∧
     (normalizeEmotions ⟨1, 1, 1, 1, 1, 1, 1⟩).angry ≤ 100 ∧
     (normalizeEmotions ⟨1, 1, 1, 1, 1, 1, 1⟩).disgust ≤ 100 ∧
     (normalizeEmotions ⟨1, 1, 1, 1, 1, 1, 1⟩).fear ≤ 100 ∧
     (normalizeEmotions ⟨1, 1, 1, 1, 1, 1, 1⟩).happy ≤ 100 ∧
     (normalizeEmotions ⟨1, 1, 1, 1, 1, 1, 1⟩).sad ≤ 100 ∧
     (normalizeEmotions ⟨1, 1, 1, 1, 1, 1, 1⟩).surprise ≤ 100 ∧
     (normalizeEmotions ⟨1, 1, 1, 1, 1, 1, 1⟩).neutral ≤ 100 ∧
     (normalizeEmotions ⟨1, 1, 1, 1, 1, 1, 1⟩).total = 100) :=
  ⟨⟨zero_le_one, zero_le_one, zero_le_one, zero_le_one, zero_le_one, zero_le_one, zero_le_one⟩,
   add_pos (add_pos (add_pos (add_pos (add_pos (add_pos zero_lt_one zero_lt_one)
     zero_lt_one) zero_lt_one) zero_lt_one) zero_lt_one) zero_lt_one,
   c3_normalized_bounds_sum ⟨1, 1, 1, 1, 1, 1, 1⟩
     ⟨zero_le_one, zero_le_one, zero_le_one, zero_le_one, zero_le_one, zero_le_one, zero_le_one⟩
     (add_pos (add_pos (add_pos (add_pos (add_pos (add_pos zero_lt_one zero_lt_one)
       zero_lt_one) zero_lt_one) zero_lt_one) zero_lt_one) zero_lt_one)⟩

/-- Claim C8: calculateShockScore is monotone non-decreasing in each
emotion category: increasing one category of a non-negative input never
decreases the returned score. -/
theorem c8_shockScore_monotone (e : Emotions) (c : EmotionCat) (v : ℚ)
    (_h : e.Nonneg) (hv : e.get c ≤ v) :
    calculateShockScore e ≤ calculateShockScore (e.set c v) := by
  apply calculateShockScore_mono
  cases c <;>
    simp only [Emotions.get, Emotions.set, Emotions.le] at hv ⊢ <;>
    refine ⟨?_, ?_, ?_, ?_, ?_, ?_, ?_⟩ <;> first | exact le_refl _ | exact hv

/-- Witness for claim C8: raising fear from 0 to 1 on the zero record. -/
theorem c8_shockScore_monotone_witness :
    Emotions.Nonneg emZero ∧ Emotions.get emZero EmotionCat.fear ≤ 1 ∧
    calculateShockScore emZero ≤ calculateShockScore (Emotions.set emZero EmotionCat.fear 1) :=
  ⟨⟨le_refl 0, le_refl 0, le_refl 0, le_refl 0, le_refl 0, le_refl 0, le_refl 0⟩,
   zero_le_one,
   c8_shockScore_monotone emZero EmotionCat.fear 1
     ⟨le_refl 0, le_refl 0, le_refl 0, le_refl 0, le_refl 0, le_refl 0, le_refl 0⟩
     zero_le_one⟩

/-- Claim C9: the mock-analysis generator of analyze-simple.js yields
non-negative category values with fear at least 20, so the total used
as the normalization divisor is strictly positive and no division by
zero can occur. -/
theorem c9_mock_divisor_positive (r : RandDraws) (h : r.InUnit) :
    (mockSimpleEmotions r).Nonneg ∧ 20 ≤ (mockSimpleEmotions r).fear ∧
    0 < (mockSimpleEmotions r).total := by
  obtain ⟨⟨h1, _⟩, ⟨h2, _⟩, ⟨h3, _⟩, ⟨h4, _⟩, ⟨h5, _⟩, ⟨h6, _⟩, ⟨h7, _⟩, _⟩ := h
  simp only [mockSimpleEmotions, Emotions.Nonneg, Emotions.total]
  refine ⟨⟨?_, ?_, ?_, ?_, ?_, ?_, ?_⟩, ?_, ?_⟩ <;> linarith

/-- Witness for claim C9 at all-zero random draws. -/
theorem c9_mock_divisor_positive_witness :
    RandDraws.InUnit randZero ∧
    ((mockSimpleEmotions randZero).Nonneg ∧ 20 ≤ (mockSimpleEmotions randZero).fear ∧
     0 < (mockSimpleEmotions randZero).total) :=
  ⟨⟨⟨le_refl 0, zero_lt_one⟩, ⟨le_refl 0, zero_lt_one⟩, ⟨le_refl 0, zero_lt_one⟩,
    ⟨le_refl 0, zero_lt_one⟩, ⟨le_refl 0, zero_lt_one⟩, ⟨le_refl 0, zero_lt_one⟩,
    ⟨le_refl 0, zero_lt_one⟩, ⟨le_refl 0, zero_lt_one⟩⟩,
   c9_mock_divisor_positive randZero
     ⟨⟨le_refl 0, zero_lt_one⟩, ⟨le_refl 0, zero_lt_one⟩, ⟨le_refl 0, zero_lt_one⟩,
      ⟨le_refl 0, zero_lt_one⟩, ⟨le_refl 0, zero_lt_one⟩, ⟨le_refl 0, zero_lt_one⟩,
      ⟨le_refl 0, zero_lt_one⟩, ⟨le_refl 0, zero_lt_one⟩⟩⟩

/-- Claim C4: the spec says a classifier failure is treated identically
to a zero-faces data gap.  Counterexample: on a Python failure the
analyze.js catch branch reports faceDetected true with mock data, while
the no-face branch reports faceDetected false, so the two outcomes
differ. -/
theorem c4_claim_false :
    ("faceDetected", JsValue.bool true) ∈ (analyzeFrameExpress PyOutcome.failure randZero).body ∧
    ("faceDetected", JsValue.bool false) ∈
      (analyzeFrameExpress (PyOutcome.success false emZero "") randZero).body ∧
    analyzeFrameExpress PyOutcome.failure randZero ≠
      analyzeFrameExpress (PyOutcome.success false emZero "") randZero := by
  refine ⟨?_, ?_, ?_⟩
  · simp [analyzeFrameExpress]
  · simp [analyzeFrameExpress]
  · intro hcontra
    have := congrArg (fun r => r.body.length) hcontra
    simp [analyzeFrameExpress] at this

/-- Claim C4 (amended): when the Python analysis fails, the handler
does not abort the session — it still answers HTTP 200 — but unlike the
zero-faces data gap it reports faceDetected true together with mock
emotion data marked by a _note field. -/
theorem c4_amended_failure_mock (rand : RandDraws) :
    (analyzeFrameExpress PyOutcome.failure rand).status = 200 ∧
    ("faceDetected", JsValue.bool true) ∈ (analyzeFrameExpress PyOutcome.failure rand).body ∧
    ("_note", JsValue.str "Using mock data - Python engine unavailable") ∈
      (analyzeFrameExpress PyOutcome.failure rand).body := by
  refine ⟨rfl, ?_, ?_⟩ <;> simp [analyzeFrameExpress]

/-- Claim C5: whenever the analyzer detects no face, the analyze-frame
endpoint answers HTTP 200 with faceDetected false and the defined
no-face message — a recoverable outcome, never a fatal error. -/
theorem c5_no_face_recoverable (em : Emotions) (dom : String) (rand : RandDraws) :
    (analyzeFrameExpress (PyOutcome.success false em dom) rand).status = 200 ∧
    ("faceDetected", JsValue.bool false) ∈
      (analyzeFrameExpress (PyOutcome.success false em dom) rand).body ∧
    ("message", JsValue.str "No face detected in frame") ∈
      (analyzeFrameExpress (PyOutcome.success false em dom) rand).body := by
  refine ⟨rfl, ?_, ?_⟩ <;> simp [analyzeFrameExpress]

/-- Claim C6: the spec says every successful frame-analysis response
exposes only the fields faceDetected, emotions, dominantEmotion and
shockScore.  Counterexample: the successful Netlify response also
carries the _platform marker field, which is none of the four. -/
theorem c6_claim_false :
    (netlifyAnalyzeFrame "POST" randZero).status = 200 ∧
    ("_platform", JsValue.str "netlify") ∈ (netlifyAnalyzeFrame "POST" randZero).body ∧
    "_platform" ∉ aggregateFieldNames := by
  refine ⟨rfl, ?_, ?_⟩
  · simp [netlifyAnalyzeFrame]
  · simp [aggregateFieldNames]

/-- Claim C6 (amended): every successful response of the frame-analysis
handlers (the analyze.js route, the analyze-simple.js route and the
Netlify function) uses only the aggregate field names faceDetected,
emotions, dominantEmotion, shockScore plus the non-identifying metadata
string fields message, _note, _mode, _platform, and no field value is
raw imagery, a bounding box or a per-face identifier. -/
theorem c6_amended_no_per_face_data (outcome : PyOutcome) (rand : RandDraws) (method : String) :
    (analyzeFrameExpress outcome rand).body.all fieldOk = true ∧
    (analyzeSimple rand).body.all fieldOk = true ∧
    ((netlifyAnalyzeFrame method rand).status = 200 →
      (netlifyAnalyzeFrame method rand).body.all fieldOk = true) := by
  refine ⟨?_, rfl, ?_⟩
  · cases outcome with
    | success f em dom => cases f <;> rfl
    | failure => rfl
  · unfold netlifyAnalyzeFrame
    split_ifs with h1 h2
    · intro _; rfl
    · intro hcontra; exact absurd hcontra (by decide)
    · intro _; rfl

/-- Witness for claim C6 (amended): the POST branch of the Netlify
function is a successful response and satisfies the field predicate. -/
theorem c6_amended_no_per_face_data_witness :
    (netlifyAnalyzeFrame "POST" randZero).status = 200 ∧
    (netlifyAnalyzeFrame "POST" randZero).body.all fieldOk = true :=
  ⟨rfl, (c6_amended_no_per_face_data (PyOutcome.success true emZero "neutral")
    randZero "POST").2.2 rfl⟩

/-- Claim C7: retrieving a report is deterministic and read-only: the
response is a function of the stored report contents alone, and the
handler leaves the store unchanged. -/
theorem c7_report_deterministic {R : Type} (parse : String → Option R)
    (store1 store2 : Store) (videoId : String)
    (h : store1 (reportFileName videoId) = store2 (reportFileName videoId)) :
    (reportHandler parse store1 videoId).1 = (reportHandler parse store2 videoId).1 ∧
    (reportHandler parse store1 videoId).2 = store1 := by
  constructor
  · unfold reportHandler
    rw [h]
    rcases store2 (reportFileName videoId) with _ | c
    · rfl
    · rcases hp : parse c with _ | r <;> simp [hp]
  · unfold reportHandler
    rcases store1 (reportFileName videoId) with _ | c
    · rfl
    · rcases hp : parse c with _ | r <;> simp [hp]

/-- Witness for claim C7 on the empty store with the identity parse. -/
theorem c7_report_deterministic_witness :
    ((fun _ : String => (none : Option String)) (reportFileName "v") =
      (fun _ : String => (none : Option String)) (reportFileName "v")) ∧
    ((reportHandler (fun s => some s) (fun _ : String => (none : Option String)) "v").1 =
      (reportHandler (fun s => some s) (fun _ : String => (none : Option String)) "v").1 ∧
     (reportHandler (fun s => some s) (fun _ : String => (none : Option String)) "v").2 =
      (fun _ : String => (none : Option String))) :=
  ⟨rfl, c7_report_deterministic (fun s => some s)
    (fun _ : String => (none : Option String)) (fun _ : String => (none : Option String)) "v" rfl⟩

/-- Claim C10: the status endpoint is total over video ids: it always
answers HTTP 200, reporting completed with reportAvailable true exactly
when the report file exists and processing with reportAvailable false
exactly when it does not; it never answers not-found. -/
theorem c10_status_total (store : Store) (videoId : String) :
    (statusHandler store videoId).1 = 200 ∧
    ((statusHandler store videoId).2.status = "completed" ∧
        (statusHandler store videoId).2.reportAvailable = true ↔
      (store (reportFileName videoId)).isSome = true) ∧
    ((statusHandler store videoId).2.status = "processing" ∧
        (statusHandler store videoId).2.reportAvailable = false ↔
      (store (reportFileName videoId)).isSome = false) := by
  unfold statusHandler
  rcases store (reportFileName videoId) with _ | c <;> simp

end ShockScore
